import Mathlib

/-!
Formal model of the mr_eleven_stream plugin, translated from
src/mr_eleven_stream/mod.py.

The module glues a vendor text-to-speech streaming client to a host agent
framework.  We model:
  * the module-level configuration constants (lines 14-19);
  * the registry probe that decides local vs remote delivery (lines 23-25);
  * the local playback fallback cascade of the function named
    underscore-play-audio-locally (lines 28-150);
  * the adapter class ElevenLabsStreamer: construction (lines 153-162) and
    the head of stream_text_to_speech that resolves the vendor call
    parameters (lines 188-212);
  * the speak command orchestrator (lines 318-396), with the vendor chunk
    sequence, the persona lookup and the SIP sink modelled as explicit
    environment inputs.

Python exceptions are modelled with Except; the Exception value itself is
irrelevant to control flow, so the error type is Unit (or String where the
message matters).  Python float arithmetic is modelled with the rationals;
sleeps are recorded as events in a trace rather than performed.
-/

set_option autoImplicit false

namespace MrElevenStream

/-! ## Module constants (mod.py lines 14-19)

The three voice-shaping defaults read environment variables in the source
(returning strings when set, a latent type slip); the claims under study do
not involve that override, so they are modelled as their literal defaults. -/

def DEFAULT_VOICE_ID : String := "JBFqnCBsd6RMkjVDRZzb"

def DEFAULT_MODEL_ID : String := "eleven_flash_v2_5"

def DEFAULT_OUTPUT_FORMAT : String := "ulaw_8000"

def SIMILARITY_BOOST_DEFAULT : ℚ := 3 / 4

def SPEECH_SPEED_DEFAULT : ℚ := 1

def STABILITY_DEFAULT : ℚ := 1 / 2

/-! ## Python helpers -/

/-- Python truthiness-based choice on an optional string:
the expression (v or d) where None and the empty string are falsy. -/
def pyOrStr (v : Option String) (d : String) : String :=
  match v with
  | none => d
  | some s => if s = "" then d else s

/-- Python (a or b) on two optional strings (None and empty string falsy). -/
def pyOrOpt (a b : Option String) : Option String :=
  match a with
  | some s => if s = "" then b else some s
  | none => b

/-- Python falsiness of an optional string (None or empty). -/
def isFalsy : Option String → Bool
  | none => true
  | some s => s = ""

/-- Python substring containment (sub in s) for a nonempty pattern. -/
def pyContains (sub s : String) : Bool := (s.splitOn sub).length != 1

/-! ## Registry probe (mod.py lines 23-25)

The host service registry entry for the SIP sink capability is modelled as
an Option Unit: some () when a sink function is registered (function
objects are always truthy in Python), none otherwise. -/

/-- Local playback is enabled exactly when no sip_audio_out_chunk function
is registered (mod.py line 25: the dictionary lookup is None). -/
def _get_local_playback_enabled (functions : Option Unit) : Bool :=
  functions.isNone

/-! ## Local playback fallback cascade (mod.py lines 28-150)

The function tries, in order: the vendor helper elevenlabs.play, an ffplay
subprocess, the pygame mixer, and pydub decode-and-play.  The whole body is
wrapped in an outer try/except Exception.  Each mechanism availability and
behaviour is an environment input. -/

/-- Behaviour of the vendor helper mechanism: the import fails, the play
call succeeds, or the play call raises (only ImportError is caught locally;
any other exception reaches the outer handler). -/
inductive M1 where
  | importError
  | ok
  | raiseOther
deriving DecidableEq, Repr

/-- Behaviour of the ffplay subprocess mechanism: the binary is missing
(FileNotFoundError, caught), the process exits zero, exits non-zero
(logged, falls through), or some other exception is raised (caught by the
except Exception clause of this mechanism, falls through). -/
inductive M2 where
  | notFound
  | exitZero
  | exitNonzero
  | raiseCaught
deriving DecidableEq, Repr

/-- Behaviour of the pygame mechanism: import fails, playback succeeds, or
a non-import exception is raised (reaches the outer handler). -/
inductive M3 where
  | importError
  | ok
  | raiseOther
deriving DecidableEq, Repr

/-- Behaviour of the pydub mechanism on a supported format: import fails,
decode-and-play succeeds, or a non-import exception is raised (reaches the
outer handler). -/
inductive M4 where
  | importError
  | ok
  | raiseOther
deriving DecidableEq, Repr

/-- Availability and behaviour of the four playback mechanisms. -/
structure PlayEnv where
  m1 : M1
  m2 : M2
  m3 : M3
  m4 : M4
deriving DecidableEq, Repr

/-- Dispositions of a call to the local playback function.  Every
disposition is a normal return; outerCaught is the branch where a raised
exception was swallowed by the outer except Exception handler (line 149). -/
inductive PlayOutcome where
  | playedWith (mech : Nat)
  | unsupportedFormat
  | noLibrary
  | outerCaught
deriving DecidableEq, Repr

/-- The sample rate the source infers from substrings of the format tag
(mod.py lines 58-65 and 122-128). -/
def inferSampleRate (fmt : String) : Nat :=
  if pyContains "16000" fmt then 16000
  else if pyContains "44100" fmt then 44100
  else if pyContains "24000" fmt then 24000
  else 22050

/-- The ffplay command line chosen by substring matching on the lowercased
format tag (mod.py lines 46-76). -/
def ffplayCmd (fmt : String) : List String :=
  if pyContains "ulaw" fmt.toLower then
    ["ffplay", "-nodisp", "-autoexit", "-loglevel", "quiet",
     "-f", "mulaw", "-ar", "8000", "-ac", "1", "-i", "pipe:0"]
  else if pyContains "mp3" fmt.toLower then
    ["ffplay", "-nodisp", "-autoexit", "-loglevel", "quiet",
     "-f", "mp3", "-i", "pipe:0"]
  else if pyContains "pcm" fmt.toLower then
    ["ffplay", "-nodisp", "-autoexit", "-loglevel", "quiet",
     "-f", "s16le", "-ar", toString (inferSampleRate fmt), "-ac", "1",
     "-i", "pipe:0"]
  else
    ["ffplay", "-nodisp", "-autoexit", "-loglevel", "quiet", "-i", "pipe:0"]

/-- Whether the pydub mechanism can decode the format: it handles mp3 and
pcm substrings; anything else (notably ulaw) is unsupported and triggers a
warning followed by an immediate return (mod.py lines 118-139). -/
def pydubSupported (fmt : String) : Bool :=
  pyContains "mp3" fmt.toLower || pyContains "pcm" fmt.toLower

/-- Mechanism 1 (mod.py lines 32-39): vendor helper.  Returns the
disposition (none means fall through to the next mechanism) and the list of
mechanisms whose playback action actually ran. -/
def tryM1 (b : M1) : Option (Except Unit PlayOutcome) × List Nat :=
  match b with
  | .importError => (none, [])
  | .ok => (some (Except.ok (PlayOutcome.playedWith 1)), [1])
  | .raiseOther => (some (Except.error ()), [1])

/-- Mechanism 2 (mod.py lines 42-90): ffplay subprocess.  All of its
failure modes are caught within the mechanism, so only exit code zero stops
the cascade. -/
def tryM2 (b : M2) : Option (Except Unit PlayOutcome) × List Nat :=
  match b with
  | .notFound => (none, [])
  | .exitZero => (some (Except.ok (PlayOutcome.playedWith 2)), [2])
  | .exitNonzero => (none, [2])
  | .raiseCaught => (none, [2])

/-- Mechanism 3 (mod.py lines 94-110): pygame mixer.  Only ImportError is
caught locally; any other exception reaches the outer handler. -/
def tryM3 (b : M3) : Option (Except Unit PlayOutcome) × List Nat :=
  match b with
  | .importError => (none, [])
  | .ok => (some (Except.ok (PlayOutcome.playedWith 3)), [3])
  | .raiseOther => (some (Except.error ()), [3])

/-- Mechanism 4 (mod.py lines 113-145): pydub decode-and-play.  On an
unsupported format it logs a warning and returns from the whole function
(line 139) without attempting playback. -/
def tryM4 (fmt : String) (b : M4) : Option (Except Unit PlayOutcome) × List Nat :=
  match b with
  | .importError => (none, [])
  | .ok =>
    if pydubSupported fmt then (some (Except.ok (PlayOutcome.playedWith 4)), [4])
    else (some (Except.ok PlayOutcome.unsupportedFormat), [4])
  | .raiseOther =>
    if pydubSupported fmt then (some (Except.error ()), [4])
    else (some (Except.ok PlayOutcome.unsupportedFormat), [4])

/-- The body of the local playback function inside the outer try (mod.py
lines 30-147): the four mechanisms in order, falling through only where the
source catches the failure, ending in the no-library warning (line 147). -/
def playInner (fmt : String) (env : PlayEnv) : Except Unit PlayOutcome × List Nat :=
  match tryM1 env.m1 with
  | (some r, a) => (r, a)
  | (none, a1) =>
    match tryM2 env.m2 with
    | (some r, a2) => (r, a1 ++ a2)
    | (none, a2) =>
      match tryM3 env.m3 with
      | (some r, a3) => (r, a1 ++ a2 ++ a3)
      | (none, a3) =>
        match tryM4 fmt env.m4 with
        | (some r, a4) => (r, a1 ++ a2 ++ a3 ++ a4)
        | (none, a4) => (Except.ok PlayOutcome.noLibrary, a1 ++ a2 ++ a3 ++ a4)

/-- The local playback function (mod.py lines 28-150): the inner cascade
wrapped in the outer except Exception handler, which logs and returns
normally.  The second component records, in order, the mechanisms whose
playback action was invoked. -/
def _play_audio_locally (fmt : String) (env : PlayEnv) : PlayOutcome × List Nat :=
  match playInner fmt env with
  | (Except.ok o, a) => (o, a)
  | (Except.error _, a) => (PlayOutcome.outerCaught, a)

/-! ## The streaming adapter (mod.py lines 152-246)

The vendor client object only carries the credential in this model; opening
the stream is modelled by the record of parameters actually passed to
client.text_to_speech.stream (mod.py lines 206-212). -/

/-- The vendor SDK client object, constructed from the credential
(mod.py line 158). -/
structure ElevenLabsClient where
  api_key : String
deriving DecidableEq, Repr

/-- The adapter instance state (mod.py lines 153-162). -/
structure ElevenLabsStreamer where
  api_key : String
  client : ElevenLabsClient
  local_playback_enabled : Bool
deriving DecidableEq, Repr

/-- The voice-shaping parameter record the source builds at mod.py
lines 203-205. -/
structure VoiceSettings where
  stability : ℚ
  similarity_boost : ℚ
  speed : ℚ
deriving DecidableEq, Repr

/-- The parameters passed to the vendor streaming call
client.text_to_speech.stream at mod.py lines 206-212: text, voice_id,
model_id, output_format, plus whatever arrives through the keyword
arguments (modelled here by an optional voice_settings entry, the only
keyword relevant to the claims; the speak and stream_tts paths pass no
extra keywords). -/
structure VendorStreamCall where
  text : String
  voice_id : String
  model_id : String
  output_format : String
  voice_settings : Option VoiceSettings
deriving DecidableEq, Repr

/-- Adapter construction (mod.py lines 153-162).  The credential is the
argument or else the environment variable; a falsy result raises ValueError
before the vendor client is constructed.  The registry snapshot at
construction time seeds local_playback_enabled. -/
def ElevenLabsStreamer.init (api_key env_key : Option String)
    (functions : Option Unit) : Except String ElevenLabsStreamer :=
  let key := pyOrOpt api_key env_key
  if isFalsy key then
    Except.error "ElevenLabs API key not found. Set ELEVENLABS_API_KEY environment variable."
  else
    Except.ok { api_key := key.getD ""
                client := { api_key := key.getD "" }
                local_playback_enabled := _get_local_playback_enabled functions }

/-- The parameter-resolution head of stream_text_to_speech (mod.py
lines 188-212): recompute the delivery mode from the current registry
snapshot (lines 193-196), force the speaker-friendly codec in local mode
(lines 200-201), build the voice_settings record (lines 203-205, which the
source then never passes on), and open the vendor stream with the resolved
parameters (lines 206-212).  Returns the vendor call record and the updated
adapter state. -/
def ElevenLabsStreamer.stream_text_to_speech (s : ElevenLabsStreamer)
    (functions : Option Unit)
    (text voice_id model_id output_format : String)
    (speed stability similarity_boost : ℚ)
    (kwargs_voice_settings : Option VoiceSettings) :
    VendorStreamCall × ElevenLabsStreamer :=
  let local_enabled := !functions.isSome
  let output_format := if local_enabled then "mp3_22050_32" else output_format
  let _voice_settings : VoiceSettings :=
    { stability := stability, similarity_boost := similarity_boost, speed := speed }
  ({ text := text, voice_id := voice_id, model_id := model_id,
     output_format := output_format, voice_settings := kwargs_voice_settings },
   { s with local_playback_enabled := local_enabled })

/-! ## The speak command orchestrator (mod.py lines 318-396)

Sleeps are recorded as trace events; the vendor chunk sequence, the persona
lookup and the SIP sink are environment inputs.  A raising vendor stream is
modelled as raising after yielding the listed chunks (an earlier failure is
the same environment with a shorter list). -/

/-- Observable events of one speak call: a chunk of the given byte length
successfully forwarded to the sink, or a sleep of the given duration in
seconds. -/
inductive Ev where
  | sent (len : Nat)
  | slept (d : ℚ)
deriving DecidableEq, Repr

/-- The environment of one speak call. -/
structure SpeakEnv where
  /-- The sip_audio_out_chunk registry entry at call start. -/
  functions : Option Unit
  /-- Outcome of the persona lookup (mod.py lines 353-355): none when any
  step raises, some pv when it succeeds with pv the voice_id entry of the
  persona (none when the key is absent). -/
  personaLookup : Option (Option String)
  /-- The byte chunks yielded by the vendor stream. -/
  chunks : List (List Nat)
  /-- Whether the vendor stream raises after yielding the listed chunks. -/
  streamRaises : Bool
  /-- Behaviour of the SIP sink on the n-th chunk of the call: an exception
  (caught at mod.py line 381) or the continuation flag. -/
  sink : Nat → Except Unit Bool

/-- The warning string returned on early interruption (mod.py line 379). -/
def interruptWarning : String := "SYSTEM: WARNING - Command interrupted!\n\n"

/-- The per-chunk pacing sleep (mod.py lines 369-370): the chunk byte
length divided by 8000, times 0.98. -/
def chunkSleep (len : Nat) : ℚ := (len : ℚ) / 8000 * (98 / 100)

/-- The chunk loop of speak (mod.py lines 362-383).  For each chunk the
counter increments; in remote mode the chunk is forwarded to the sink, the
pacing sleep runs, and a false continuation flag triggers one extra
one-second sleep and an early return (the warning below three chunks, no
result otherwise); a sink exception is caught and the loop continues.
Returns the early-return value if any, the event trace, and the final
counter. -/
def speakLoop (localPlayback : Bool) (sink : Nat → Except Unit Bool) :
    List (List Nat) → Nat → Option (Option String) × List Ev × Nat
  | [], count => (none, [], count)
  | c :: rest, count =>
    if localPlayback then
      speakLoop localPlayback sink rest (count + 1)
    else
      match sink (count + 1) with
      | Except.error _ => speakLoop localPlayback sink rest (count + 1)
      | Except.ok shouldContinue =>
        if shouldContinue then
          let r := speakLoop localPlayback sink rest (count + 1)
          (r.1, Ev.sent c.length :: Ev.slept (chunkSleep c.length) :: r.2.1, r.2.2)
        else
          (some (if count + 1 < 3 then some interruptWarning else none),
           [Ev.sent c.length, Ev.slept (chunkSleep c.length), Ev.slept 1],
           count + 1)

/-- The effective voice after the persona lookup (mod.py lines 348-358).
The assignment before the try block (line 348) is overwritten on both the
success path (line 355, which uses the persona value with the global
default for a missing key) and the failure path (line 358, which restores
the per-call override or the global default). -/
def resolveVoice (voice_id : Option String) (lookup : Option (Option String)) : String :=
  match lookup with
  | some personaVoice => personaVoice.getD DEFAULT_VOICE_ID
  | none => pyOrStr voice_id DEFAULT_VOICE_ID

/-- The voice normalization the stream_tts service applies before invoking
the adapter (mod.py line 299). -/
def stream_tts_voice (voice_id : Option String) : String :=
  pyOrStr voice_id DEFAULT_VOICE_ID

/-- Result of one speak call: the returned value, the voice identifier
handed to the vendor stream, and the trace of sends and sleeps. -/
structure SpeakOut where
  ret : Option String
  usedVoice : String
  trace : List Ev
deriving DecidableEq, Repr

/-- The voice identifier the speak command hands to the vendor stream: the
result of the persona resolution (mod.py lines 348-358) threaded through
the stream_tts normalization (line 299). -/
def speakVoice (voice_id : Option String) (env : SpeakEnv) : String :=
  stream_tts_voice (some (resolveVoice voice_id env.personaLookup))

/-- The body of speak inside the outer try (mod.py lines 349-392): resolve
the voice, run the chunk loop, and on normal loop completion either let a
vendor-stream exception propagate, or, in remote mode only, sleep a quarter
second before returning no result. -/
def speakBody (voice_id : Option String) (env : SpeakEnv) :
    Except Unit (Option String) × String × List Ev :=
  match speakLoop (_get_local_playback_enabled env.functions) env.sink env.chunks 0 with
  | (some ret, tr, _) => (Except.ok ret, speakVoice voice_id env, tr)
  | (none, tr, _) =>
    if env.streamRaises then (Except.error (), speakVoice voice_id env, tr)
    else if _get_local_playback_enabled env.functions then
      (Except.ok none, speakVoice voice_id env, tr)
    else (Except.ok none, speakVoice voice_id env, tr ++ [Ev.slept (1 / 4)])

/-- The speak command (mod.py lines 318-396): the body wrapped in the outer
except Exception handler, which logs the error and returns None
(lines 394-396). -/
def speak (voice_id : Option String) (env : SpeakEnv) : SpeakOut :=
  match speakBody voice_id env with
  | (Except.ok ret, v, tr) => { ret := ret, usedVoice := v, trace := tr }
  | (Except.error _, v, tr) => { ret := none, usedVoice := v, trace := tr }

/-- Number of chunks successfully forwarded to the sink in a trace. -/
def sentCount (tr : List Ev) : Nat :=
  tr.countP (fun e => match e with | Ev.sent _ => true | Ev.slept _ => false)

/-- Whether every forwarded chunk in a trace is immediately followed by the
pacing sleep prescribed for its length. -/
def pacedOk : List Ev → Bool
  | [] => true
  | Ev.slept _ :: rest => pacedOk rest
  | [Ev.sent _] => false
  | Ev.sent len :: Ev.slept d :: rest => decide (d = chunkSleep len) && pacedOk rest
  | Ev.sent _ :: Ev.sent _ :: _ => false

/-! ## Helper lemmas about the chunk loop -/

/-- In local mode the chunk loop only counts chunks: no events, no early
return. -/
theorem speakLoop_local (sink : Nat → Except Unit Bool) :
    ∀ (chunks : List (List Nat)) (count : Nat),
      speakLoop true sink chunks count = (none, [], count + chunks.length)
  | [], count => by simp [speakLoop]
  | c :: rest, count => by
    rw [speakLoop, if_pos rfl, speakLoop_local sink rest (count + 1)]
    simp
    omega

/-- The early-return value of the chunk loop is absent, None, or the
interruption warning. -/
theorem speakLoop_ret_cases (lp : Bool) (sink : Nat → Except Unit Bool) :
    ∀ (chunks : List (List Nat)) (count : Nat),
      (speakLoop lp sink chunks count).1 = none ∨
      (speakLoop lp sink chunks count).1 = some none ∨
      (speakLoop lp sink chunks count).1 = some (some interruptWarning)
  | [], _ => Or.inl rfl
  | c :: rest, count => by
    have ih := speakLoop_ret_cases lp sink rest (count + 1)
    rw [speakLoop]
    cases lp
    · simp only [Bool.false_eq_true, if_false]
      cases hs : sink (count + 1) with
      | error e => exact ih
      | ok b =>
        cases b
        · simp only [if_false]
          by_cases h3 : count + 1 < 3 <;> simp [h3]
        · simpa using ih
    · simpa using ih

/-- Every trace the chunk loop produces is correctly paced. -/
theorem speakLoop_paced (lp : Bool) (sink : Nat → Except Unit Bool) :
    ∀ (chunks : List (List Nat)) (count : Nat),
      pacedOk (speakLoop lp sink chunks count).2.1 = true
  | [], _ => rfl
  | c :: rest, count => by
    have ih := speakLoop_paced lp sink rest (count + 1)
    rw [speakLoop]
    cases lp
    · simp only [Bool.false_eq_true, if_false]
      cases hs : sink (count + 1) with
      | error e => exact ih
      | ok b =>
        cases b
        · simp [pacedOk]
        · simpa [pacedOk] using ih
    · simpa using ih

/-- Appending a bare sleep event preserves pacing correctness. -/
theorem pacedOk_append_slept (d : ℚ) :
    ∀ tr : List Ev, pacedOk tr = true → pacedOk (tr ++ [Ev.slept d]) = true
  | [], _ => rfl
  | Ev.slept _ :: rest, h => by
    simpa [pacedOk] using pacedOk_append_slept d rest (by simpa [pacedOk] using h)
  | [Ev.sent _], h => by simp [pacedOk] at h
  | Ev.sent l :: Ev.slept e :: rest, h => by
    have h2 : e = chunkSleep l ∧ pacedOk rest = true := by simpa [pacedOk] using h
    simpa [pacedOk, h2.1] using pacedOk_append_slept d rest h2.2
  | Ev.sent _ :: Ev.sent _ :: _, h => by simp [pacedOk] at h

/-- When the sink accepts every chunk before chunk N and reports a false
continuation flag on chunk N, the remote-mode loop stops at N with the
prescribed early-return value, exactly N minus count forwarded chunks, and
a trace ending in the one-second sleep. -/
theorem speakLoop_stop (sink : Nat → Except Unit Bool) (N : Nat) :
    ∀ (chunks : List (List Nat)) (count : Nat),
      count < N → N ≤ count + chunks.length →
      (∀ k, count < k → k < N → sink k = Except.ok true) →
      sink N = Except.ok false →
      (speakLoop false sink chunks count).1 =
        some (if N < 3 then some interruptWarning else none) ∧
      sentCount (speakLoop false sink chunks count).2.1 = N - count ∧
      ∃ pre, (speakLoop false sink chunks count).2.1 = pre ++ [Ev.slept 1]
  | [], count => by
    intro h1 h2 _ _
    simp at h2
    omega
  | c :: rest, count => by
    intro hlt hle htrue hfalse
    rw [speakLoop]
    simp only [Bool.false_eq_true, if_false]
    by_cases hN : count + 1 = N
    · rw [hN, hfalse]
      refine ⟨rfl, ?_, ⟨[Ev.sent c.length, Ev.slept (chunkSleep c.length)], rfl⟩⟩
      simp [sentCount]
      omega
    · have hs := htrue (count + 1) (Nat.lt_succ_self count) (by omega)
      rw [hs]
      have ih := speakLoop_stop sink N rest (count + 1) (by omega)
        (by simp only [List.length_cons] at hle; omega)
        (fun k hk1 hk2 => htrue k (by omega) hk2) hfalse
      obtain ⟨ih1, ih2, pre, ihpre⟩ := ih
      refine ⟨by simpa using ih1, ?_,
        ⟨Ev.sent c.length :: Ev.slept (chunkSleep c.length) :: pre, by simp [ihpre]⟩⟩
      simp only [sentCount, List.countP_cons] at ih2 ⊢
      simp at ih2 ⊢
      omega

/-- The voice identifier speak uses is the resolved one, on every path. -/
theorem speak_usedVoice (cv : Option String) (env : SpeakEnv) :
    (speak cv env).usedVoice = speakVoice cv env := by
  unfold speak speakBody
  rcases hsl : speakLoop (_get_local_playback_enabled env.functions) env.sink env.chunks 0
    with ⟨r1, tr, cnt⟩
  cases r1
  · by_cases h1 : env.streamRaises <;>
      by_cases h2 : _get_local_playback_enabled env.functions = true <;> simp [h1, h2]
  · simp

/-! ## Claims -/

/-- Claim C1, counterexample: with a per-call voice_id supplied and a
successful persona lookup providing a different voice, speak hands the
persona voice to the vendor stream, not the per-call override, refuting the
claimed precedence of the override. -/
theorem persona_voice_beats_call_override :
    (speak (some "pNInz6obpgDQGcFmaJgB")
      { functions := none
        personaLookup := some (some "agentPersonaVoice")
        chunks := []
        streamRaises := false
        sink := fun _ => Except.ok true }).usedVoice = "agentPersonaVoice" ∧
    (speak (some "pNInz6obpgDQGcFmaJgB")
      { functions := none
        personaLookup := some (some "agentPersonaVoice")
        chunks := []
        streamRaises := false
        sink := fun _ => Except.ok true }).usedVoice ≠ "pNInz6obpgDQGcFmaJgB" := by
  constructor
  · rfl
  · decide

/-- Claim C1, amended: the effective voice identifier is the persona
voice_id whenever the host persona lookup succeeds and supplies one (any
per-call override is ignored); the global default when the lookup succeeds
without a voice_id entry; and only when the lookup fails does the per-call
override apply, with the global default as the final fallback. -/
theorem speak_voice_resolution (cv : Option String) (env : SpeakEnv) :
    (∀ v, v ≠ "" → env.personaLookup = some (some v) →
      (speak cv env).usedVoice = v) ∧
    (env.personaLookup = some none →
      (speak cv env).usedVoice = DEFAULT_VOICE_ID) ∧
    (∀ s, s ≠ "" → env.personaLookup = none → cv = some s →
      (speak cv env).usedVoice = s) ∧
    (env.personaLookup = none → cv = none →
      (speak cv env).usedVoice = DEFAULT_VOICE_ID) := by
  refine ⟨?_, ?_, ?_, ?_⟩
  · intro v hv hl
    rw [speak_usedVoice]
    simp [speakVoice, stream_tts_voice, resolveVoice, pyOrStr, hl, hv]
  · intro hl
    rw [speak_usedVoice]
    simp [speakVoice, stream_tts_voice, resolveVoice, pyOrStr, hl]
  · intro s hs hl hcv
    rw [speak_usedVoice]
    simp [speakVoice, stream_tts_voice, resolveVoice, pyOrStr, hl, hcv, hs]
  · intro hl hcv
    rw [speak_usedVoice]
    simp [speakVoice, stream_tts_voice, resolveVoice, pyOrStr, hl, hcv]

/-- Claim C1, amended, witness: with the persona lookup failing, the
per-call override is the effective voice. -/
theorem speak_voice_resolution_witness :
    (speak (some "pNInz6obpgDQGcFmaJgB")
      { functions := some ()
        personaLookup := none
        chunks := []
        streamRaises := false
        sink := fun _ => Except.ok true }).usedVoice = "pNInz6obpgDQGcFmaJgB" :=
  (speak_voice_resolution (some "pNInz6obpgDQGcFmaJgB")
    { functions := some ()
      personaLookup := none
      chunks := []
      streamRaises := false
      sink := fun _ => Except.ok true }).2.2.1
    "pNInz6obpgDQGcFmaJgB" (by decide) rfl rfl

/-- Claim C2: the voice-shaping parameters stability, similarity_boost and
speed are packed into a voice_settings record (mod.py lines 203-205) that
the source then never passes to the vendor stream call (lines 206-212): the
vendor call is identical for any two choices of the three parameters, and
on the path taken by speak and stream_tts (no extra keyword arguments) it
carries no voice settings at all.  This contradicts the claim that the
stream is opened with the three voice-shaping parameters. -/
theorem vendor_call_ignores_voice_shaping (s : ElevenLabsStreamer)
    (functions : Option Unit) (text voice_id model_id output_format : String)
    (sp st sb sp2 st2 sb2 : ℚ) (kw : Option VoiceSettings) :
    (s.stream_text_to_speech functions text voice_id model_id output_format
        sp st sb kw).1 =
      (s.stream_text_to_speech functions text voice_id model_id output_format
        sp2 st2 sb2 kw).1 ∧
    (s.stream_text_to_speech functions text voice_id model_id output_format
        sp st sb none).1.voice_settings = none :=
  ⟨rfl, rfl⟩

/-- Claim C3, counterexample: in local delivery mode with a non-empty chunk
sequence, the trace of speak is empty: in particular no brief sleep occurs
after the chunk sequence is drained, contrary to the claim. -/
theorem speak_local_no_trailing_sleep :
    (speak none
      { functions := none
        personaLookup := none
        chunks := [[0, 0, 0], [1]]
        streamRaises := false
        sink := fun _ => Except.ok true }).trace = [] := by decide

/-- Claim C3, amended: in local delivery mode the speak command applies no
pacing sleep per chunk and, after draining the chunk sequence, returns
without any sleep at this layer at all (the brief quarter-second post-drain
sleep occurs only in remote mode); it returns no result. -/
theorem speak_local_mode_silent (cv : Option String) (env : SpeakEnv)
    (h : env.functions = none) :
    (speak cv env).trace = [] ∧ (speak cv env).ret = none := by
  have hlp : _get_local_playback_enabled env.functions = true := by rw [h]; rfl
  unfold speak speakBody
  rw [hlp, speakLoop_local env.sink env.chunks 0]
  by_cases h1 : env.streamRaises <;> simp [h1]

/-- Claim C3, amended, witness. -/
theorem speak_local_mode_silent_witness :
    (speak none
      { functions := none
        personaLookup := some (some "v")
        chunks := [[0], [1, 2]]
        streamRaises := false
        sink := fun _ => Except.ok false }).ret = none :=
  (speak_local_mode_silent none
    { functions := none
      personaLookup := some (some "v")
      chunks := [[0], [1, 2]]
      streamRaises := false
      sink := fun _ => Except.ok false } rfl).2

/-- Claim C4, counterexample: when the vendor helper is importable but its
play call raises, the exception reaches the outer handler and the function
returns: the ffplay mechanism, although available and bound to succeed, is
never invoked, so a failing mechanism does not always hand over to the next
one as claimed. -/
theorem play_mech1_raise_aborts_cascade :
    _play_audio_locally "mp3_22050_32"
      { m1 := M1.raiseOther, m2 := M2.exitZero,
        m3 := M3.importError, m4 := M4.importError } =
      (PlayOutcome.outerCaught, [1]) := by decide

/-- Claim C4, amended: mechanism selection is strictly ordered: when a
mechanism succeeds no later mechanism is invoked; an unavailable mechanism
(failed import, missing ffplay binary) and any ffplay failure (non-zero
exit or exception, both caught locally) hand over to the next mechanism;
but a raised exception in the vendor helper, pygame or pydub path is caught
only by the outer handler, which ends the cascade with an error logged (for
pygame this means pydub is never invoked; for pydub the raise presupposes a
format its decoder handles, since otherwise the unsupported-format branch
returns first); in every case the function returns normally and never
raises to the caller. -/
theorem play_fallback_ordered (fmt : String) (env : PlayEnv) :
    (∀ k, (_play_audio_locally fmt env).1 = PlayOutcome.playedWith k →
      ∀ m ∈ (_play_audio_locally fmt env).2, m ≤ k) ∧
    (env.m1 = M1.importError → env.m2 ≠ M2.exitZero → env.m3 = M3.importError →
      env.m4 = M4.importError →
      (_play_audio_locally fmt env).1 = PlayOutcome.noLibrary) ∧
    (env.m1 = M1.raiseOther →
      _play_audio_locally fmt env = (PlayOutcome.outerCaught, [1])) ∧
    (env.m1 = M1.importError → env.m2 ≠ M2.exitZero → env.m3 = M3.ok →
      (_play_audio_locally fmt env).1 = PlayOutcome.playedWith 3) ∧
    (env.m1 = M1.importError → env.m2 ≠ M2.exitZero → env.m3 = M3.raiseOther →
      (_play_audio_locally fmt env).1 = PlayOutcome.outerCaught ∧
      4 ∉ (_play_audio_locally fmt env).2) ∧
    (env.m1 = M1.importError → env.m2 ≠ M2.exitZero → env.m3 = M3.importError →
      env.m4 = M4.raiseOther → pydubSupported fmt = true →
      (_play_audio_locally fmt env).1 = PlayOutcome.outerCaught) := by
  obtain ⟨m1, m2, m3, m4⟩ := env
  by_cases hp : pydubSupported fmt = true <;>
    cases m1 <;> cases m2 <;> cases m3 <;> cases m4 <;>
      simp_all [_play_audio_locally, playInner, tryM1, tryM2, tryM3, tryM4]

/-- Claim C4, amended, witness: with every mechanism unavailable the
cascade falls through to the no-library warning and returns normally. -/
theorem play_fallback_ordered_witness :
    (_play_audio_locally "ulaw_8000"
      { m1 := M1.importError, m2 := M2.notFound,
        m3 := M3.importError, m4 := M4.importError }).1 = PlayOutcome.noLibrary :=
  (play_fallback_ordered "ulaw_8000"
    { m1 := M1.importError, m2 := M2.notFound,
      m3 := M3.importError, m4 := M4.importError }).2.1 rfl (by decide) rfl rfl

/-- Claim C5: in remote delivery, when the sink accepts chunks 1 to N-1 and
reports a false continuation flag on chunk N, speak performs exactly one
additional one-second sleep as the last action of its trace and returns:
the non-empty interruption warning when N is below 3, no result otherwise;
exactly N chunks were forwarded in total. -/
theorem speak_sink_stop (cv : Option String) (env : SpeakEnv) (N : Nat)
    (hreg : env.functions = some ()) (h1 : 1 ≤ N) (hlen : N ≤ env.chunks.length)
    (htrue : ∀ k, 1 ≤ k → k < N → env.sink k = Except.ok true)
    (hfalse : env.sink N = Except.ok false) :
    (speak cv env).ret = (if N < 3 then some interruptWarning else none) ∧
    interruptWarning ≠ "" ∧
    sentCount (speak cv env).trace = N ∧
    (∃ pre, (speak cv env).trace = pre ++ [Ev.slept 1]) := by
  have hlp : _get_local_playback_enabled env.functions = false := by rw [hreg]; rfl
  have hstop := speakLoop_stop env.sink N env.chunks 0 (by omega) (by omega)
    (fun k hk1 hk2 => htrue k (by omega) hk2) hfalse
  unfold speak speakBody
  rw [hlp]
  rcases hsl : speakLoop false env.sink env.chunks 0 with ⟨r1, tr, cnt⟩
  rw [hsl] at hstop
  simp only at hstop
  obtain ⟨hret, hcount, pre, hpre⟩ := hstop
  subst hret
  refine ⟨rfl, by decide, ?_, ⟨pre, ?_⟩⟩
  · simpa using hcount
  · simpa using hpre

/-- Claim C5, witness: a concrete run whose sink stops after the second of
three chunks returns the warning string. -/
theorem speak_sink_stop_witness :
    (speak none
      { functions := some ()
        personaLookup := none
        chunks := [[0], [0], [0]]
        streamRaises := false
        sink := fun k => Except.ok (decide (k < 2)) }).ret = some interruptWarning := by
  have h := speak_sink_stop none
    { functions := some ()
      personaLookup := none
      chunks := [[0], [0], [0]]
      streamRaises := false
      sink := fun k => Except.ok (decide (k < 2)) } 2 rfl (by omega) (by decide)
    (fun k hk1 hk2 => by
      have hk : k = 1 := by omega
      subst hk
      rfl)
    rfl
  simpa using h.1

/-- Claim C6: every chunk forwarded to the sink is immediately followed by
a pacing sleep of (chunk byte length divided by 8000) times 0.98 seconds,
exactly over the rationals, which model the float computation within
tolerance; this holds for every environment (in local mode vacuously, since
nothing is forwarded). -/
theorem speak_pacing (cv : Option String) (env : SpeakEnv) :
    pacedOk (speak cv env).trace = true := by
  have h := speakLoop_paced (_get_local_playback_enabled env.functions) env.sink env.chunks 0
  unfold speak speakBody
  rcases hsl : speakLoop (_get_local_playback_enabled env.functions) env.sink env.chunks 0
    with ⟨r1, tr, cnt⟩
  rw [hsl] at h
  simp only at h
  cases r1
  · by_cases h1 : env.streamRaises <;>
      by_cases h2 : _get_local_playback_enabled env.functions = true <;>
      simp [h1, h2, h, pacedOk_append_slept]
  · simpa using h

/-- Claim C7: delivery mode is local exactly when no sink capability is
registered at call start, at both probe sites (the registry helper and the
recomputation inside stream_text_to_speech); the mode is recomputed from
the registry snapshot of the current call, independently of the adapter
state carried over from earlier calls, so toggling registration between
calls changes the mode on the next call only. -/
theorem local_mode_iff_no_sink (s t : ElevenLabsStreamer) (functions : Option Unit)
    (text voice_id model_id output_format : String)
    (speed stability similarity_boost : ℚ) (kw : Option VoiceSettings) :
    ((s.stream_text_to_speech functions text voice_id model_id output_format
        speed stability similarity_boost kw).2.local_playback_enabled = true ↔
      functions = none) ∧
    (_get_local_playback_enabled functions = true ↔ functions = none) ∧
    (s.stream_text_to_speech functions text voice_id model_id output_format
        speed stability similarity_boost kw).2.local_playback_enabled =
      (t.stream_text_to_speech functions text voice_id model_id output_format
        speed stability similarity_boost kw).2.local_playback_enabled := by
  cases functions <;>
    simp [ElevenLabsStreamer.stream_text_to_speech, _get_local_playback_enabled]

/-- Claim C7, witness: with no sink registered, the mode of the call is
local even when the carried-over adapter state says otherwise. -/
theorem local_mode_iff_no_sink_witness :
    (ElevenLabsStreamer.stream_text_to_speech
      { api_key := "k", client := { api_key := "k" }, local_playback_enabled := false }
      none "hello" "v" "m" "ulaw_8000" 1 1 1 none).2.local_playback_enabled = true :=
  (local_mode_iff_no_sink
    { api_key := "k", client := { api_key := "k" }, local_playback_enabled := false }
    { api_key := "k", client := { api_key := "k" }, local_playback_enabled := true }
    none "hello" "v" "m" "ulaw_8000" 1 1 1 none).1.mpr rfl

/-- Claim C8: whenever the delivery mode is local the vendor stream request
uses the speaker-friendly codec mp3_22050_32 whatever format the caller
requested; the caller format is used exactly in remote mode. -/
theorem local_mode_forces_mp3 (s : ElevenLabsStreamer) (functions : Option Unit)
    (text voice_id model_id output_format : String)
    (speed stability similarity_boost : ℚ) (kw : Option VoiceSettings) :
    (s.stream_text_to_speech functions text voice_id model_id output_format
        speed stability similarity_boost kw).1.output_format =
      (if functions.isSome then output_format else "mp3_22050_32") := by
  cases functions <;> simp [ElevenLabsStreamer.stream_text_to_speech]

/-- Claim C9: constructing the adapter with no key argument and no
environment key raises the configuration ValueError before any network call
is attempted (the error branch is taken before the vendor client object is
built, so the error value carries no client); with a non-empty key
available, construction succeeds and builds the client from that key. -/
theorem missing_api_key_raises (functions : Option Unit) (k : String)
    (hk : k ≠ "") (env_key : Option String) :
    ElevenLabsStreamer.init none none functions =
      Except.error "ElevenLabs API key not found. Set ELEVENLABS_API_KEY environment variable." ∧
    ElevenLabsStreamer.init (some k) env_key functions =
      Except.ok { api_key := k, client := { api_key := k },
                  local_playback_enabled := _get_local_playback_enabled functions } := by
  constructor
  · rfl
  · simp [ElevenLabsStreamer.init, pyOrOpt, isFalsy, hk]

/-- Claim C9, witness: a concrete key yields a constructed adapter. -/
theorem missing_api_key_raises_witness :
    ElevenLabsStreamer.init (some "sk-test") none none =
      Except.ok { api_key := "sk-test", client := { api_key := "sk-test" },
                  local_playback_enabled := true } :=
  (missing_api_key_raises none "sk-test" (by decide) none).2

/-- Claim C10: the speak command never propagates an exception to its
caller: whatever the environment does (vendor stream failure, persona
lookup failure, sink failure, early sink stop), the outer handler leaves
only two possible outcomes, no result or the short warning string. -/
theorem speak_never_raises (cv : Option String) (env : SpeakEnv) :
    (speak cv env).ret = none ∨ (speak cv env).ret = some interruptWarning := by
  have hc := speakLoop_ret_cases (_get_local_playback_enabled env.functions) env.sink env.chunks 0
  unfold speak speakBody
  rcases hsl : speakLoop (_get_local_playback_enabled env.functions) env.sink env.chunks 0
    with ⟨r1, tr, cnt⟩
  rw [hsl] at hc
  simp only at hc
  rcases hc with h | h | h <;> subst h
  · by_cases h1 : env.streamRaises <;>
      by_cases h2 : _get_local_playback_enabled env.functions = true <;> simp [h1, h2]
  · simp
  · simp

end MrElevenStream
